import Mathlib

/-!
Verification of the benchmark orchestration and measurement engine in
`src/benchmark.js`: workload generation (`generateValue`), client pool
creation (`createClients`), the six scenario runners' operation counts and
throughput computation, the comparison-table winner selection
(`printComparisonTable`), key-namespace cleanup (`cleanup`), startup
connectivity handling (`runBenchmarks`), and the live-dashboard update step.

Durations are wall-clock milliseconds, modelled as rationals; JavaScript
`Math.round` (nearest integer, ties toward positive infinity) is modelled by
`jsRound`; keys and glob patterns are lists of characters.
-/

set_option linter.unusedVariables false

namespace Benchmark

/-- JavaScript `Math.round` (also the tie rule of `Number.prototype.toFixed`):
the nearest integer, with ties resolved toward positive infinity. -/
def jsRound (q : ℚ) : ℤ := ⌊q + 1/2⌋

/-- The fixed alphanumeric alphabet used by `generateValue` in
`src/benchmark.js` (line 13). -/
def chars : List Char :=
  "ABCDEFGHIJKLMNOPQRSTUVWXYZabcdefghijklmnopqrstuvwxyz0123456789".toList

/-- The alphabet has 62 characters, so `Math.floor(Math.random() * chars.length)`
always lands in `Fin 62`. -/
theorem chars_length : chars.length = 62 := by decide

/-- `generateValue(size)` from `src/benchmark.js` (lines 12-19): builds a
string of `size` characters, the `i`-th chosen as
`chars.charAt(Math.floor(Math.random() * chars.length))`; the random draw is
modelled by `rand : ℕ → Fin 62`. -/
def generateValue (size : ℕ) (rand : ℕ → Fin 62) : List Char :=
  (List.range size).map fun i => chars.get (Fin.cast chars_length.symm (rand i))

/-- Logical operations issued during the timed section of a scenario runner. -/
inductive Op where
  | scanPass
  | keysMatch (pat : List Char)
  | infoMemory
  | dbsize
  | msetKey (k : List Char)
  | mgetKey (k : List Char)
  | zrevrange
  | zrangebyscore
  | zcount
  | setKey (k : List Char)
  | getKey (k : List Char)
  | incrKey (k : List Char)
  | lpushKey (k : List Char)
  | hsetKey (k : List Char)

/-- Key written by the scan scenario's population phase: `scan:key:i`. -/
def scanKey (i : ℕ) : List Char := "scan:key:".toList ++ (toString i).toList

/-- Key written by the bulk scenario: `bulk:iter:i`. -/
def bulkKey (iter i : ℕ) : List Char :=
  "bulk:".toList ++ (toString iter).toList ++ ":".toList ++ (toString i).toList

/-- Key written by the mixed scenario: `mixed:clientIdx:p:i`. -/
def mixedKey (c p i : ℕ) : List Char :=
  "mixed:".toList ++ (toString c).toList ++ ":".toList ++ (toString p).toList
    ++ ":".toList ++ (toString i).toList

/-- Counter key of the mixed scenario: `counter:clientIdx`. -/
def counterKey (c : ℕ) : List Char := "counter:".toList ++ (toString c).toList

/-- List key of the mixed scenario: `list:clientIdx`. -/
def listKey (c : ℕ) : List Char := "list:".toList ++ (toString c).toList

/-- Hash key of the mixed scenario: `hash:clientIdx`. -/
def hashKey (c : ℕ) : List Char := "hash:".toList ++ (toString c).toList

/-- The sorted-set key of the sorted-set scenario. -/
def leaderboardKey : List Char := "leaderboard:main".toList

/-- Measured operations of `benchmarkConcurrentScan` (lines 66-77): each of
the `numClients` clients performs 10 full cursor-to-completion scan passes;
`totalOps` counts passes, not cursor round trips. -/
def scanMeasuredOps (numClients : ℕ) : List Op :=
  (List.range numClients).flatMap fun _ =>
    (List.range 10).map fun _ => Op.scanPass

/-- Measured operations of `benchmarkKeysPattern` (lines 103-107): each of
the `numClients` clients issues `iterations` KEYS pattern listings. -/
def keysMeasuredOps (numClients iterations : ℕ) : List Op :=
  (List.range numClients).flatMap fun _ =>
    (List.range iterations).map fun _ => Op.keysMatch "scan:key:*".toList

/-- Measured operations of `benchmarkMemoryInfo` (lines 134-139): each of the
`numClients` clients alternates INFO memory and DBSIZE, `iterations` times. -/
def infoMeasuredOps (numClients iterations : ℕ) : List Op :=
  (List.range numClients).flatMap fun _ =>
    (List.range iterations).flatMap fun _ => [Op.infoMemory, Op.dbsize]

/-- Measured logical operations of `benchmarkBulkOperations` (lines 169-183):
per iteration, a batched multi-set of `batchSize` keys followed by a batched
multi-get of the same keys; counted per key, not per round trip. -/
def bulkMeasuredOps (batchSize iterations : ℕ) : List Op :=
  (List.range iterations).flatMap fun iter =>
    ((List.range batchSize).map fun i => Op.msetKey (bulkKey iter i))
      ++ ((List.range batchSize).map fun i => Op.mgetKey (bulkKey iter i))

/-- Measured operations of `benchmarkSortedSetQueries` (lines 220-227): each
of the `numClients` clients issues 3 range-query shapes per iteration. -/
def zsetMeasuredOps (numClients queriesPerClient : ℕ) : List Op :=
  (List.range numClients).flatMap fun _ =>
    (List.range queriesPerClient).flatMap fun _ =>
      [Op.zrevrange, Op.zrangebyscore, Op.zcount]

/-- Measured operations of `benchmarkPipelinedMixed` (lines 255-271): each of
the `numClients` clients runs `pipelinesPerClient` pipelines, each pipeline
holding 50 repetitions of set, get, incr, lpush, hset. -/
def mixedMeasuredOps (numClients pipelinesPerClient : ℕ) : List Op :=
  (List.range numClients).flatMap fun c =>
    (List.range pipelinesPerClient).flatMap fun p =>
      (List.range 50).flatMap fun i =>
        [Op.setKey (mixedKey c p i), Op.getKey (mixedKey c p i),
         Op.incrKey (counterKey c), Op.lpushKey (listKey c),
         Op.hsetKey (hashKey c)]

/-- Result record returned by every scenario runner in `src/benchmark.js`:
wall-clock duration in milliseconds, rounded operations per second, and the
total operation count. -/
structure ScenarioResult where
  duration : ℚ
  opsPerSecond : ℤ
  totalOps : ℕ

/-- `benchmarkConcurrentScan` result (lines 81-89): duration is the measured
wall time in ms, and the returned record is
`{ duration, opsPerSecond: Math.round((numClients * 10) / (duration / 1000)),
totalOps: numClients * 10 }`; `keysToCreate` only drives population. -/
def benchmarkConcurrentScan (numClients keysToCreate : ℕ) (duration : ℚ) :
    ScenarioResult :=
  { duration := duration
  , opsPerSecond := jsRound ((numClients * 10 : ℚ) / (duration / 1000))
  , totalOps := numClients * 10 }

/-- `benchmarkKeysPattern` result (lines 111-120):
`totalOps = numClients * iterations`,
`opsPerSecond = Math.round((totalOps / duration) * 1000)`. -/
def benchmarkKeysPattern (numClients iterations : ℕ) (duration : ℚ) :
    ScenarioResult :=
  { duration := duration
  , opsPerSecond := jsRound (((numClients * iterations : ℕ) : ℚ) / duration * 1000)
  , totalOps := numClients * iterations }

/-- `benchmarkMemoryInfo` result (lines 143-152):
`totalOps = numClients * iterations * 2`. -/
def benchmarkMemoryInfo (numClients iterations : ℕ) (duration : ℚ) :
    ScenarioResult :=
  { duration := duration
  , opsPerSecond := jsRound (((numClients * iterations * 2 : ℕ) : ℚ) / duration * 1000)
  , totalOps := numClients * iterations * 2 }

/-- `benchmarkBulkOperations` result (lines 185-194):
`totalOps = iterations * batchSize * 2`. -/
def benchmarkBulkOperations (batchSize iterations : ℕ) (duration : ℚ) :
    ScenarioResult :=
  { duration := duration
  , opsPerSecond := jsRound (((iterations * batchSize * 2 : ℕ) : ℚ) / duration * 1000)
  , totalOps := iterations * batchSize * 2 }

/-- `benchmarkSortedSetQueries` result (lines 231-240):
`totalOps = numClients * queriesPerClient * 3`; `setSize` only drives
population of the sorted set. -/
def benchmarkSortedSetQueries (setSize numClients queriesPerClient : ℕ)
    (duration : ℚ) : ScenarioResult :=
  { duration := duration
  , opsPerSecond :=
      jsRound (((numClients * queriesPerClient * 3 : ℕ) : ℚ) / duration * 1000)
  , totalOps := numClients * queriesPerClient * 3 }

/-- `benchmarkPipelinedMixed` result (lines 275-284):
`totalOps = numClients * pipelinesPerClient * 50 * 5`. -/
def benchmarkPipelinedMixed (numClients pipelinesPerClient : ℕ) (duration : ℚ) :
    ScenarioResult :=
  { duration := duration
  , opsPerSecond :=
      jsRound (((numClients * pipelinesPerClient * 50 * 5 : ℕ) : ℚ) / duration * 1000)
  , totalOps := numClients * pipelinesPerClient * 50 * 5 }

/-- The two endpoints of a comparison, in the order they are listed in the
results table: Redis first, DragonflyDB second. -/
inductive Endpoint where
  | redis
  | dragonfly
deriving DecidableEq

/-- Winner and speedup ratio computed by `printComparisonTable` for one
scenario row. -/
structure ComparisonEntry where
  winner : Endpoint
  ratio : ℚ

/-- Winner selection and speedup computation of `printComparisonTable`
(lines 356-363): `isDragonflyWinner = dragonflyOps > redisOps`; the winner's
throughput is divided by the loser's. -/
def compareResults (redisOps dragonflyOps : ℚ) : ComparisonEntry :=
  if dragonflyOps > redisOps then
    { winner := Endpoint.dragonfly, ratio := dragonflyOps / redisOps }
  else
    { winner := Endpoint.redis, ratio := redisOps / dragonflyOps }

/-- The glob patterns deleted by `cleanup` (line 289), verbatim. -/
def cleanupPatterns : List (List Char) :=
  ["scan:*".toList, "bulk:*".toList, "leaderboard:*".toList, "mixed:*".toList,
   "counter:*".toList, "list:*".toList, "hash:*".toList]

/-- MATCH semantics for the trailing-star globs used here: the pattern
without its final star must head the key. -/
def matchesGlob (pat k : List Char) : Bool := List.isPrefixOf pat.dropLast k

/-- A key matches at least one of the declared cleanup patterns. -/
def matchesAnyPattern (k : List Char) : Bool :=
  cleanupPatterns.any fun pat => matchesGlob pat k

/-- Effect of `cleanup` (lines 288-300) on the key space: for each pattern in
turn, every key matching the pattern is deleted (the SCAN/DEL cursor loop
visits the whole key space). -/
def cleanup (store : List (List Char)) : List (List Char) :=
  cleanupPatterns.foldl (fun st pat => st.filter fun k => ! matchesGlob pat k) store

/-- Count of keys matching any declared cleanup pattern. -/
def countMatching (store : List (List Char)) : ℕ :=
  (store.filter matchesAnyPattern).length

/-- Keys written by the scan scenario's population phase (lines 53-59). -/
def scanWrittenKeys (keysToCreate : ℕ) : List (List Char) :=
  (List.range keysToCreate).map scanKey

/-- Keys written by the bulk scenario (lines 169-175). -/
def bulkWrittenKeys (batchSize iterations : ℕ) : List (List Char) :=
  (List.range iterations).flatMap fun iter =>
    (List.range batchSize).map (bulkKey iter)

/-- Keys written by the sorted-set scenario (line 211). -/
def sortedSetWrittenKeys : List (List Char) := [leaderboardKey]

/-- Keys written by the mixed scenario (lines 260-267). -/
def mixedWrittenKeys (numClients pipelinesPerClient : ℕ) : List (List Char) :=
  (List.range numClients).flatMap fun c =>
    ((List.range pipelinesPerClient).flatMap fun p =>
      (List.range 50).map fun i => mixedKey c p i)
      ++ [counterKey c, listKey c, hashKey c]

/-- The KEYS pattern scenario writes no keys. -/
def keysPatternWrittenKeys : List (List Char) := []

/-- The memory-info scenario writes no keys. -/
def memoryInfoWrittenKeys : List (List Char) := []

/-- Whether each startup connection attempt in `runBenchmarks` succeeds. -/
structure ConnectEnv where
  redisConnects : Bool
  dragonflyConnects : Bool

/-- Outcome of a batch run: the process exit code and the scenarios that
actually executed, in order. -/
structure RunOutcome where
  exitCode : ℕ
  scenariosRun : List String

/-- The six scenario names of the batch run, in execution order. -/
def scenarioNames : List String :=
  ["Concurrent SCAN", "KEYS Pattern", "Memory Info", "Bulk MSET/MGET",
   "Sorted Set Queries", "Mixed Workload"]

/-- Startup control flow of `runBenchmarks` (lines 479-494): both endpoints
are connected inside one try block; any failure hits the catch, which calls
`process.exit(1)` before any scenario runs; on success all six scenarios run
and the process ends normally. -/
def runBenchmarks (env : ConnectEnv) : RunOutcome :=
  if env.redisConnects && env.dragonflyConnects then
    { exitCode := 0, scenariosRun := scenarioNames }
  else
    { exitCode := 1, scenariosRun := [] }

/-- Pool construction loop of `createClients` (lines 22-34): client `i` is
created and awaited; a failed `connect` throws, aborting the whole call.
`connectOk i` tells whether the `i`-th connection establishes; the returned
pool lists the indices of the connected clients. -/
def createClientsFrom (connectOk : ℕ → Bool) (i : ℕ) :
    ℕ → Except String (List ℕ)
  | 0 => .ok []
  | n + 1 =>
    if connectOk i then
      match createClientsFrom connectOk (i + 1) n with
      | .ok rest => .ok (i :: rest)
      | .error e => .error e
    else .error "connection failed"

/-- `createClients(port, count)` from `src/benchmark.js` (lines 22-34). -/
def createClients (count : ℕ) (connectOk : ℕ → Bool) :
    Except String (List ℕ) :=
  createClientsFrom connectOk 0 count

/-- Mutable run state of the live dashboard (lines 717-721): iteration count
and the two win counters. -/
structure DashState where
  iteration : ℕ
  redisWins : ℕ
  dragonflyWins : ℕ

/-- Initial dashboard state: all counters zero. -/
def initialState : DashState := { iteration := 0, redisWins := 0, dragonflyWins := 0 }

/-- Counter updates of one successfully completed dashboard `update` step
(lines 724-744): `iteration++`, then `dragonflyWins++` when
`dragonflyOps > redisOps`, else `redisWins++`. -/
def update (s : DashState) (redisOps dragonflyOps : ℚ) : DashState :=
  if dragonflyOps > redisOps then
    { iteration := s.iteration + 1
    , redisWins := s.redisWins
    , dragonflyWins := s.dragonflyWins + 1 }
  else
    { iteration := s.iteration + 1
    , redisWins := s.redisWins + 1
    , dragonflyWins := s.dragonflyWins }

/-- Win rate displayed in the stats table (line 784):
`((wins / iteration) * 100).toFixed(0)`, a whole-percent rounding. -/
def winRateDisplayed (wins iteration : ℕ) : ℤ :=
  jsRound ((wins : ℚ) / (iteration : ℚ) * 100)

/-- Helper: the length of a flat map whose pieces all have length `c`. -/
theorem length_flatMap_const {α β : Type} (l : List α) (f : α → List β) (c : ℕ)
    (h : ∀ a ∈ l, (f a).length = c) : (l.flatMap f).length = l.length * c := by
  induction l with
  | nil => simp
  | cons a t ih =>
    simp only [List.flatMap_cons, List.length_append, List.length_cons]
    rw [h a (by simp), ih fun x hx => h x (by simp [hx])]
    ring

/-- Helper: a key that extends a pattern's starless head matches that glob. -/
theorem matchesGlob_append_self (pat rest : List Char) :
    matchesGlob pat (pat.dropLast ++ rest) = true := by
  simp [matchesGlob, List.isPrefixOf_iff_prefix]

/-- Helper: matching one declared pattern suffices for `matchesAnyPattern`. -/
theorem matchesAnyPattern_of_mem (pat k : List Char)
    (hmem : pat ∈ cleanupPatterns) (hm : matchesGlob pat k = true) :
    matchesAnyPattern k = true := by
  simp only [matchesAnyPattern, List.any_eq_true]
  exact ⟨pat, hmem, hm⟩

/-- Helper: population keys of the scan scenario match `scan:*`. -/
theorem scanKey_matchesAny (i : ℕ) : matchesAnyPattern (scanKey i) = true := by
  refine matchesAnyPattern_of_mem "scan:*".toList _ (by simp [cleanupPatterns]) ?_
  have h : scanKey i
      = ("scan:*".toList).dropLast ++ ("key:".toList ++ (toString i).toList) := by
    show "scan:key:".toList ++ (toString i).toList = _
    rw [show ("scan:*".toList).dropLast = "scan:".toList from by decide]
    rw [show "scan:key:".toList = "scan:".toList ++ "key:".toList from by decide]
    simp
  rw [h]
  exact matchesGlob_append_self _ _

/-- Helper: bulk-scenario keys match `bulk:*`. -/
theorem bulkKey_matchesAny (iter i : ℕ) :
    matchesAnyPattern (bulkKey iter i) = true := by
  refine matchesAnyPattern_of_mem "bulk:*".toList _ (by simp [cleanupPatterns]) ?_
  have h : bulkKey iter i
      = ("bulk:*".toList).dropLast
        ++ ((toString iter).toList ++ ":".toList ++ (toString i).toList) := by
    show "bulk:".toList ++ (toString iter).toList ++ ":".toList
        ++ (toString i).toList = _
    rw [show ("bulk:*".toList).dropLast = "bulk:".toList from by decide]
    simp
  rw [h]
  exact matchesGlob_append_self _ _

/-- Helper: mixed-scenario value keys match `mixed:*`. -/
theorem mixedKey_matchesAny (c p i : ℕ) :
    matchesAnyPattern (mixedKey c p i) = true := by
  refine matchesAnyPattern_of_mem "mixed:*".toList _ (by simp [cleanupPatterns]) ?_
  have h : mixedKey c p i
      = ("mixed:*".toList).dropLast
        ++ ((toString c).toList ++ ":".toList ++ (toString p).toList
          ++ ":".toList ++ (toString i).toList) := by
    show "mixed:".toList ++ (toString c).toList ++ ":".toList
        ++ (toString p).toList ++ ":".toList ++ (toString i).toList = _
    rw [show ("mixed:*".toList).dropLast = "mixed:".toList from by decide]
    simp
  rw [h]
  exact matchesGlob_append_self _ _

/-- Helper: mixed-scenario counter keys match `counter:*`. -/
theorem counterKey_matchesAny (c : ℕ) :
    matchesAnyPattern (counterKey c) = true := by
  refine matchesAnyPattern_of_mem "counter:*".toList _ (by simp [cleanupPatterns]) ?_
  have h : counterKey c
      = ("counter:*".toList).dropLast ++ (toString c).toList := by
    show "counter:".toList ++ (toString c).toList = _
    rw [show ("counter:*".toList).dropLast = "counter:".toList from by decide]
  rw [h]
  exact matchesGlob_append_self _ _

/-- Helper: mixed-scenario list keys match `list:*`. -/
theorem listKey_matchesAny (c : ℕ) :
    matchesAnyPattern (listKey c) = true := by
  refine matchesAnyPattern_of_mem "list:*".toList _ (by simp [cleanupPatterns]) ?_
  have h : listKey c = ("list:*".toList).dropLast ++ (toString c).toList := by
    show "list:".toList ++ (toString c).toList = _
    rw [show ("list:*".toList).dropLast = "list:".toList from by decide]
  rw [h]
  exact matchesGlob_append_self _ _

/-- Helper: mixed-scenario hash keys match `hash:*`. -/
theorem hashKey_matchesAny (c : ℕ) :
    matchesAnyPattern (hashKey c) = true := by
  refine matchesAnyPattern_of_mem "hash:*".toList _ (by simp [cleanupPatterns]) ?_
  have h : hashKey c = ("hash:*".toList).dropLast ++ (toString c).toList := by
    show "hash:".toList ++ (toString c).toList = _
    rw [show ("hash:*".toList).dropLast = "hash:".toList from by decide]
  rw [h]
  exact matchesGlob_append_self _ _

/-- Helper: the all-or-nothing shape of the pool construction loop, for any
starting index. -/
theorem createClientsFrom_spec (connectOk : ℕ → Bool) :
    ∀ (n i : ℕ),
      (∃ e, createClientsFrom connectOk i n = .error e) ∨
      (∃ l, createClientsFrom connectOk i n = .ok l ∧ l.length = n
        ∧ l.all connectOk = true) := by
  intro n
  induction n with
  | zero => intro i; exact Or.inr ⟨[], rfl, rfl, rfl⟩
  | succ m ih =>
    intro i
    by_cases hc : connectOk i
    · rcases ih (i + 1) with ⟨e, he⟩ | ⟨l, hl, hlen, hall⟩
      · exact Or.inl ⟨e, by simp [createClientsFrom, hc, he]⟩
      · refine Or.inr ⟨i :: l, by simp [createClientsFrom, hc, hl], by simp [hlen], ?_⟩
        simp [List.all_cons, hc, hall]
    · exact Or.inl ⟨"connection failed", by simp [createClientsFrom, hc]⟩

/-- Claim C1: every scenario runner's returned `totalOps` equals the
analytically-expected count — concurrent scan gives `numClients * 10`
(independent of how many keys were populated and equal to the number of scan
passes issued), pattern match gives `numClients * iterations`, admin/info
gives `numClients * iterations * 2`, bulk gives `iterations * batchSize * 2`,
sorted-set queries gives `numClients * queriesPerClient * 3`, pipelined mixed
gives `numClients * pipelinesPerClient * 50 * 5` (250000 at N=10, P=100); in
each case `totalOps` also equals the length of the measured operation list. -/
theorem totalOps_matches_formula (n k k' i b q m p : ℕ) (d : ℚ) :
    (benchmarkConcurrentScan n k d).totalOps = n * 10 ∧
    (benchmarkConcurrentScan n k d).totalOps = (benchmarkConcurrentScan n k' d).totalOps ∧
    (benchmarkConcurrentScan n k d).totalOps = (scanMeasuredOps n).length ∧
    (benchmarkKeysPattern n i d).totalOps = n * i ∧
    (benchmarkKeysPattern n i d).totalOps = (keysMeasuredOps n i).length ∧
    (benchmarkMemoryInfo n i d).totalOps = n * i * 2 ∧
    (benchmarkMemoryInfo n i d).totalOps = (infoMeasuredOps n i).length ∧
    (benchmarkBulkOperations b i d).totalOps = i * b * 2 ∧
    (benchmarkBulkOperations b i d).totalOps = (bulkMeasuredOps b i).length ∧
    (benchmarkSortedSetQueries m n q d).totalOps = n * q * 3 ∧
    (benchmarkSortedSetQueries m n q d).totalOps = (zsetMeasuredOps n q).length ∧
    (benchmarkPipelinedMixed n p d).totalOps = n * p * 50 * 5 ∧
    (benchmarkPipelinedMixed n p d).totalOps = (mixedMeasuredOps n p).length ∧
    (benchmarkPipelinedMixed 10 100 d).totalOps = 250000 := by
  refine ⟨?_, ?_, ?_, ?_, ?_, ?_, ?_, ?_, ?_, ?_, ?_, ?_, ?_, ?_⟩
  · rfl
  · rfl
  · rw [scanMeasuredOps, length_flatMap_const _ _ 10 (by intro a _; simp)]
    simp [benchmarkConcurrentScan]
  · rfl
  · rw [keysMeasuredOps, length_flatMap_const _ _ i (by intro a _; simp)]
    simp [benchmarkKeysPattern]
  · rfl
  · rw [infoMeasuredOps,
      length_flatMap_const _ _ (i * 2) (by
        intro a _
        rw [length_flatMap_const _ _ 2 (by intro x _; rfl)]
        simp)]
    simp [benchmarkMemoryInfo, mul_assoc]
  · rfl
  · rw [bulkMeasuredOps, length_flatMap_const _ _ (b * 2) (by
      intro a _
      simp only [List.length_append, List.length_map, List.length_range]
      ring)]
    simp only [benchmarkBulkOperations, List.length_range]
    ring
  · rfl
  · rw [zsetMeasuredOps, length_flatMap_const _ _ (q * 3) (by
      intro a _
      rw [length_flatMap_const _ _ 3 (by intro x _; rfl)]
      simp)]
    simp [benchmarkSortedSetQueries, mul_assoc]
  · rfl
  · rw [mixedMeasuredOps, length_flatMap_const _ _ (p * 250) (by
      intro c _
      rw [length_flatMap_const _ _ 250 (by
        intro x _
        rw [length_flatMap_const _ _ 5 (by intro y _; rfl)]
        simp)]
      simp)]
    simp only [benchmarkPipelinedMixed, List.length_range]
    ring
  · rfl

/-- Claim C2 counterexample: at `batchSize = 40`, `iterations = 1`,
`duration = 3000` ms, the bulk runner's reported throughput is
`Math.round(80 / 3) = 27`, not the exact quotient `80 / 3` operations per
second — the code rounds the throughput to the nearest integer. -/
theorem opsPerSecond_not_exact_quotient :
    ((benchmarkBulkOperations 40 1 3000).opsPerSecond : ℚ)
      ≠ ((benchmarkBulkOperations 40 1 3000).totalOps : ℚ)
        / ((benchmarkBulkOperations 40 1 3000).duration / 1000) := by
  norm_num [benchmarkBulkOperations, jsRound]

/-- Claim C2 amended: every scenario runner reports
`opsPerSecond = Math.round(totalOps * 1000 / duration-in-ms)`, i.e. the exact
quotient of operations by elapsed seconds rounded to the nearest integer, with
no smoothing or outlier removal and the same time-unit convention in all six
scenarios (the scan runner's `(n*10)/(duration/1000)` form is algebraically
the same quotient). -/
theorem opsPerSecond_eq_rounded_quotient (n k i b q m p : ℕ) (d : ℚ) :
    (benchmarkConcurrentScan n k d).opsPerSecond
      = jsRound (((benchmarkConcurrentScan n k d).totalOps : ℚ) * 1000 / d) ∧
    (benchmarkKeysPattern n i d).opsPerSecond
      = jsRound (((benchmarkKeysPattern n i d).totalOps : ℚ) * 1000 / d) ∧
    (benchmarkMemoryInfo n i d).opsPerSecond
      = jsRound (((benchmarkMemoryInfo n i d).totalOps : ℚ) * 1000 / d) ∧
    (benchmarkBulkOperations b i d).opsPerSecond
      = jsRound (((benchmarkBulkOperations b i d).totalOps : ℚ) * 1000 / d) ∧
    (benchmarkSortedSetQueries m n q d).opsPerSecond
      = jsRound (((benchmarkSortedSetQueries m n q d).totalOps : ℚ) * 1000 / d) ∧
    (benchmarkPipelinedMixed n p d).opsPerSecond
      = jsRound (((benchmarkPipelinedMixed n p d).totalOps : ℚ) * 1000 / d) := by
  refine ⟨?_, ?_, ?_, ?_, ?_, ?_⟩
  · simp only [benchmarkConcurrentScan]
    congr 1
    rw [div_div_eq_mul_div]
    push_cast
    ring
  all_goals
    simp only [benchmarkKeysPattern, benchmarkMemoryInfo,
      benchmarkBulkOperations, benchmarkSortedSetQueries,
      benchmarkPipelinedMixed]
    congr 1
    rw [div_mul_eq_mul_div]

/-- Claim C3: the comparator declares as winner the endpoint with strictly
greater throughput and reports the ratio of the larger to the smaller
throughput, which is at least 1 whenever both throughputs are positive. -/
theorem comparator_winner_and_ratio (r d : ℚ) (hr : 0 < r) (hd : 0 < d) :
    (d > r → (compareResults r d).winner = Endpoint.dragonfly) ∧
    (r > d → (compareResults r d).winner = Endpoint.redis) ∧
    (compareResults r d).ratio = max r d / min r d ∧
    1 ≤ (compareResults r d).ratio := by
  refine ⟨?_, ?_, ?_, ?_⟩
  · intro h
    rw [compareResults, if_pos h]
  · intro h
    rw [compareResults, if_neg (not_lt.mpr h.le)]
  · rcases lt_trichotomy r d with h | h | h
    · rw [compareResults, if_pos h, max_eq_right h.le, min_eq_left h.le]
    · subst h
      rw [compareResults, if_neg (lt_irrefl r), max_self, min_self]
    · rw [compareResults, if_neg (not_lt.mpr h.le), max_eq_left h.le,
        min_eq_right h.le]
  · rcases le_or_lt d r with h | h
    · rw [compareResults, if_neg (not_lt.mpr h)]
      exact (one_le_div hd).mpr h
    · rw [compareResults, if_pos h]
      exact (one_le_div hr).mpr h.le

/-- Witness for C3: at throughputs 100 and 400 the second endpoint wins with
speedup ratio 4. -/
theorem comparator_winner_and_ratio_witness :
    0 < (100 : ℚ) ∧ 0 < (400 : ℚ) ∧
    (compareResults 100 400).winner = Endpoint.dragonfly ∧
    (compareResults 100 400).ratio = 4 := by
  have h := comparator_winner_and_ratio 100 400 (by norm_num) (by norm_num)
  refine ⟨by norm_num, by norm_num, h.1 (by norm_num), ?_⟩
  rw [h.2.2.1]
  norm_num

/-- Claim C4: on exactly equal throughputs the strict greater-than test
`dragonflyOps > redisOps` fails, so the winner is Redis — the endpoint whose
value stands second in that comparison. -/
theorem tie_winner_is_second_compared (r d : ℚ) (h : r = d) :
    (compareResults r d).winner = Endpoint.redis := by
  subst h
  rw [compareResults, if_neg (lt_irrefl r)]

/-- Witness for C4: two equal throughputs of 100 give Redis as winner. -/
theorem tie_winner_is_second_compared_witness :
    (compareResults 100 100).winner = Endpoint.redis :=
  tie_winner_is_second_compared 100 100 rfl

/-- Claim C5: the comparator is deterministic — applied twice to the same
pair of throughput values (equal-throughput pairs included) it yields the
same winner and the same speedup ratio. -/
theorem comparator_deterministic (r d r' d' : ℚ) (hr : r = r') (hd : d = d') :
    (compareResults r d).winner = (compareResults r' d').winner ∧
    (compareResults r d).ratio = (compareResults r' d').ratio := by
  subst hr
  subst hd
  exact ⟨rfl, rfl⟩

/-- Witness for C5: two runs of the comparator on the equal-throughput pair
(250, 250) agree on winner and ratio. -/
theorem comparator_deterministic_witness :
    (compareResults 250 250).winner = (compareResults 250 250).winner ∧
    (compareResults 250 250).ratio = (compareResults 250 250).ratio :=
  comparator_deterministic 250 250 250 250 rfl rfl

/-- Claim C6: for every non-negative size and every sequence of random draws,
`generateValue` returns a string of length exactly `size` whose every
character belongs to the fixed alphanumeric alphabet; in particular the
result at size 1024 has length exactly 1024. -/
theorem generateValue_length_and_alphabet (size : ℕ) (rand : ℕ → Fin 62) :
    (generateValue size rand).length = size ∧
    (generateValue size rand).all (fun c => decide (c ∈ chars)) = true ∧
    (generateValue 1024 rand).length = 1024 := by
  refine ⟨?_, ?_, ?_⟩
  · simp [generateValue]
  · simp only [List.all_eq_true, generateValue, List.mem_map, List.mem_range,
      decide_eq_true_eq]
    rintro c ⟨i, _, rfl⟩
    exact List.get_mem _ _ _
  · simp [generateValue]

/-- Claim C7: for every starting key space, after `cleanup` has processed all
declared namespace patterns the count of keys matching those patterns is 0;
moreover every key any of the six scenario runners writes matches one of the
declared patterns (the two read-only scenarios write none). -/
theorem cleanup_empties_scenario_namespaces (store : List (List Char))
    (k b i n p : ℕ) :
    countMatching (cleanup store) = 0 ∧
    (scanWrittenKeys k).all matchesAnyPattern = true ∧
    (bulkWrittenKeys b i).all matchesAnyPattern = true ∧
    sortedSetWrittenKeys.all matchesAnyPattern = true ∧
    (mixedWrittenKeys n p).all matchesAnyPattern = true ∧
    keysPatternWrittenKeys.all matchesAnyPattern = true ∧
    memoryInfoWrittenKeys.all matchesAnyPattern = true := by
  refine ⟨?_, ?_, ?_, ?_, ?_, ?_, ?_⟩
  · rw [countMatching, List.length_eq_zero, List.filter_eq_nil_iff]
    intro key hk
    simp only [cleanup, cleanupPatterns, List.foldl] at hk
    simp only [List.mem_filter, Bool.not_eq_true', Bool.and_eq_true] at hk
    simp only [matchesAnyPattern, cleanupPatterns, List.any_cons,
      List.any_nil, Bool.or_eq_true]
    obtain ⟨⟨⟨⟨⟨⟨⟨_, h1⟩, h2⟩, h3⟩, h4⟩, h5⟩, h6⟩, h7⟩ := hk
    simp_all
  · simp only [List.all_eq_true, scanWrittenKeys, List.mem_map, List.mem_range]
    rintro key ⟨j, _, rfl⟩
    exact scanKey_matchesAny j
  · simp only [List.all_eq_true, bulkWrittenKeys, List.mem_flatMap,
      List.mem_map, List.mem_range]
    rintro key ⟨it, _, j, _, rfl⟩
    exact bulkKey_matchesAny it j
  · simp only [List.all_eq_true, sortedSetWrittenKeys, List.mem_singleton]
    rintro key rfl
    decide
  · simp only [List.all_eq_true, mixedWrittenKeys, List.mem_flatMap,
      List.mem_append, List.mem_map, List.mem_range, List.mem_cons,
      List.mem_singleton, List.not_mem_nil]
    rintro key ⟨c, _, ⟨pp, _, j, _, rfl⟩ | rfl | rfl | rfl | hf⟩
    · exact mixedKey_matchesAny c pp j
    · exact counterKey_matchesAny c
    · exact listKey_matchesAny c
    · exact hashKey_matchesAny c
    · exact hf.elim
  · rfl
  · rfl

/-- Claim C8: if either startup connection fails, the batch run exits with a
non-zero status and no scenario runner is ever invoked. -/
theorem startup_failure_aborts_run (env : ConnectEnv)
    (h : env.redisConnects = false ∨ env.dragonflyConnects = false) :
    (runBenchmarks env).exitCode ≠ 0 ∧ (runBenchmarks env).scenariosRun = [] := by
  rcases h with h | h <;> simp [runBenchmarks, h]

/-- Witness for C8: with the Redis connection failing and the DragonflyDB
connection succeeding, the run exits non-zero with no scenario executed. -/
theorem startup_failure_aborts_run_witness :
    (runBenchmarks { redisConnects := false, dragonflyConnects := true }).exitCode ≠ 0 ∧
    (runBenchmarks { redisConnects := false, dragonflyConnects := true }).scenariosRun = [] :=
  startup_failure_aborts_run
    { redisConnects := false, dragonflyConnects := true } (Or.inl rfl)

/-- Claim C9: `createClients` either fails the whole call or returns a pool
of exactly `count` clients, every one of which completed its connection
before the call returned — never a partial pool. -/
theorem createClients_no_partial_pool (count : ℕ) (connectOk : ℕ → Bool) :
    (∃ e, createClients count connectOk = .error e) ∨
    (∃ l, createClients count connectOk = .ok l ∧ l.length = count
      ∧ l.all connectOk = true) :=
  createClientsFrom_spec connectOk count 0

/-- Claim C10 counterexample: after eight completed dashboard updates in
which Redis wins once (ops 2 vs 1) and DragonflyDB wins seven times
(ops 1 vs 2), the win counters do sum to the iteration count, yet the
displayed whole-percent win rates are 13% and 88% — their sum is 101%,
not 100%, because both 12.5 and 87.5 round upward. -/
theorem dashboard_win_rates_can_sum_101 :
    (update (update (update (update (update (update (update (update
        initialState 2 1) 1 2) 1 2) 1 2) 1 2) 1 2) 1 2) 1 2).iteration = 8 ∧
    (update (update (update (update (update (update (update (update
        initialState 2 1) 1 2) 1 2) 1 2) 1 2) 1 2) 1 2) 1 2).redisWins = 1 ∧
    (update (update (update (update (update (update (update (update
        initialState 2 1) 1 2) 1 2) 1 2) 1 2) 1 2) 1 2) 1 2).dragonflyWins = 7 ∧
    winRateDisplayed 1 8 = 13 ∧
    winRateDisplayed 7 8 = 88 ∧
    winRateDisplayed 1 8 + winRateDisplayed 7 8 ≠ 100 := by
  refine ⟨?_, ?_, ?_, ?_, ?_, ?_⟩
  · norm_num [update, initialState]
  · norm_num [update, initialState]
  · norm_num [update, initialState]
  · norm_num [winRateDisplayed, jsRound]
  · norm_num [winRateDisplayed, jsRound]
  · norm_num [winRateDisplayed, jsRound]

/-- Claim C10 amended: every completed dashboard update step increments the
iteration counter by exactly one and exactly one win counter — DragonflyDB's
when its measured ops/sec is strictly greater, Redis's otherwise, ties
included — so `redisWins + dragonflyWins = iteration` is preserved and the
exact (unrounded) win rates sum to 100%; only the whole-percent display can
drift from 100. -/
theorem dashboard_update_preserves_invariant (s : DashState) (rOps dOps : ℚ)
    (hInv : s.redisWins + s.dragonflyWins = s.iteration) :
    (update s rOps dOps).iteration = s.iteration + 1 ∧
    (update s rOps dOps).redisWins + (update s rOps dOps).dragonflyWins
      = (update s rOps dOps).iteration ∧
    (dOps > rOps → (update s rOps dOps).dragonflyWins = s.dragonflyWins + 1
      ∧ (update s rOps dOps).redisWins = s.redisWins) ∧
    (¬ dOps > rOps → (update s rOps dOps).redisWins = s.redisWins + 1
      ∧ (update s rOps dOps).dragonflyWins = s.dragonflyWins) ∧
    ((update s rOps dOps).redisWins : ℚ) / ((update s rOps dOps).iteration : ℚ) * 100
      + ((update s rOps dOps).dragonflyWins : ℚ)
        / ((update s rOps dOps).iteration : ℚ) * 100 = 100 := by
  have hQ : (s.redisWins : ℚ) + (s.dragonflyWins : ℚ) = (s.iteration : ℚ) := by
    exact_mod_cast hInv
  have hpos : ((s.iteration : ℚ) + 1) ≠ 0 := by positivity
  by_cases hc : dOps > rOps
  · refine ⟨by simp [update, hc], ?_, fun _ => by simp [update, hc],
      fun hn => absurd hc hn, ?_⟩
    · simp only [update, if_pos hc]
      omega
    · simp only [update, if_pos hc]
      push_cast
      field_simp
      linarith
  · refine ⟨by simp [update, hc], ?_, fun hy => absurd hy hc,
      fun _ => by simp [update, hc], ?_⟩
    · simp only [update, if_neg hc]
      omega
    · simp only [update, if_neg hc]
      push_cast
      field_simp
      linarith

/-- Witness for C10 amended: one update step from the initial state with
Redis at 1 ops/sec and DragonflyDB at 2 ops/sec takes the iteration counter
to 1. -/
theorem dashboard_update_preserves_invariant_witness :
    (update initialState 1 2).iteration = initialState.iteration + 1 :=
  (dashboard_update_preserves_invariant initialState 1 2 rfl).1

end Benchmark
